import Mathlib

/-!
Verification development for the contribution-graph merge worker
(`src/index.js`).  The JavaScript source is shallowly embedded: pure
functions become Lean functions, JavaScript `Map`/object dictionaries
become insertion-ordered association lists, numbers become `Nat`/`Int`
(all counts are non-negative and no arithmetic overflows at these sizes),
and the request handler becomes a function that also returns the ordered
list of network calls it issues.
-/

namespace ContribMerge

/-- A single day of one account's contribution calendar
(`contributionDays` entries of the GraphQL payload). -/
structure Day where
  date : String
  contributionCount : Nat
deriving DecidableEq

/-- One week bucket of an account calendar. -/
structure Week where
  contributionDays : List Day
deriving DecidableEq

/-- One account's contribution calendar for one year, as returned by
`fetchContributions` (`result.data.user.contributionsCollection.contributionCalendar`). -/
structure Calendar where
  totalContributions : Nat
  weeks : List Week
deriving DecidableEq

/-- The five GitHub contribution levels produced by `getLevel`. -/
inductive Level where
  | NONE
  | FIRST_QUARTILE
  | SECOND_QUARTILE
  | THIRD_QUARTILE
  | FOURTH_QUARTILE
deriving DecidableEq

/-- `getLevel` from `src/index.js` (lines 170-176). -/
def getLevel (count : Nat) : Level :=
  if count = 0 then Level.NONE
  else if count < 5 then Level.FIRST_QUARTILE
  else if count < 10 then Level.SECOND_QUARTILE
  else if count < 20 then Level.THIRD_QUARTILE
  else Level.FOURTH_QUARTILE

/-- A merged day (`{date, contributionCount, contributionLevel}` pushed by
`mergeContributions`). -/
structure MDay where
  date : String
  contributionCount : Nat
  contributionLevel : Level
deriving DecidableEq

/-- A merged week bucket. -/
structure MWeek where
  contributionDays : List MDay
deriving DecidableEq

/-- The result object of `mergeContributions`: total, merged weeks, and the
per-date per-user breakdown (`userContributions`), the latter two modelled
as insertion-ordered association lists, matching JavaScript `Map`/object
key ordering. -/
structure MergedCalendar where
  totalContributions : Nat
  weeks : List MWeek
  userContributions : List (String × List (String × Nat))
deriving DecidableEq

/-- Lookup in an insertion-ordered association list (JavaScript
`map.get(k)` / `obj[k]`). -/
def getA {α : Type} : List (String × α) → String → Option α
  | [], _ => none
  | (k, v) :: t, key => if k = key then some v else getA t key

/-- Update in an insertion-ordered association list (JavaScript
`map.set(k, v)` / `obj[k] = v`): overwrite in place if the key exists,
otherwise append. -/
def setA {α : Type} : List (String × α) → String → α → List (String × α)
  | [], key, v => [(key, v)]
  | (k, w) :: t, key, v =>
      if k = key then (k, v) :: t else (k, w) :: setA t key v

/-- `map.get(d) || 0`: lookup with default 0. -/
def getD0 (m : List (String × Nat)) (d : String) : Nat :=
  (getA m d).getD 0

/-- The two accumulation structures built by the first phase of
`mergeContributions`: `contributionMap` and `userContributionData`. -/
structure AccState where
  cmap : List (String × Nat)
  umap : List (String × List (String × Nat))
deriving DecidableEq

/-- One day of the accumulation loop of `mergeContributions`
(lines 126-136): record the per-user value and add into the summed map. -/
def stepDay (username : String) (st : AccState) (day : Day) : AccState :=
  let inner := (getA st.umap day.date).getD []
  let umap := setA st.umap day.date (setA inner username day.contributionCount)
  let existing := getD0 st.cmap day.date
  { cmap := setA st.cmap day.date (existing + day.contributionCount),
    umap := umap }

/-- One week of the accumulation loop. -/
def stepWeek (username : String) (st : AccState) (week : Week) : AccState :=
  week.contributionDays.foldl (stepDay username) st

/-- The full accumulation phase of `mergeContributions` (lines 122-138):
iterate every day of every input calendar, pairing `dataArray[idx]` with
`usernames[idx]`. -/
def accumulate (dataArray : List Calendar) (usernames : List String) : AccState :=
  dataArray.enum.foldl
    (fun st p => p.2.weeks.foldl (stepWeek (usernames.getD p.1 "undefined")) st)
    { cmap := [], umap := [] }

/-- One day of the template walk of `mergeContributions` (lines 153-162):
look the date up in the accumulated map (default 0), add it to the running
total and push the merged day. -/
def mergeDayStep (cmap : List (String × Nat)) (a : Nat × List MDay) (day : Day) :
    Nat × List MDay :=
  let count := getD0 cmap day.date
  (a.1 + count,
   a.2 ++ [{ date := day.date, contributionCount := count,
             contributionLevel := getLevel count }])

/-- One week of the template walk (lines 148-164). -/
def mergeWeekStep (cmap : List (String × Nat)) (acc : Nat × List MWeek)
    (week : Week) : Nat × List MWeek :=
  let rw := week.contributionDays.foldl (mergeDayStep cmap) (acc.1, [])
  (rw.1, acc.2 ++ [{ contributionDays := rw.2 }])

/-- The template walk of `mergeContributions` (lines 141-165) for a
non-empty input list: walk the first calendar's week/day structure,
looking each date up in the accumulated map (default 0) while adding the
looked-up count into the running total. -/
def mergeCore (tpl : Calendar) (rest : List Calendar) (usernames : List String) :
    MergedCalendar :=
  let st := accumulate (tpl :: rest) usernames
  let r := tpl.weeks.foldl (mergeWeekStep st.cmap) (0, [])
  { totalContributions := r.1, weeks := r.2, userContributions := st.umap }

/-- `mergeContributions` from `src/index.js` (lines 115-168); returns
`none` (JavaScript `null`) for an empty input array. -/
def mergeContributions (dataArray : List Calendar) (usernames : List String) :
    Option MergedCalendar :=
  match dataArray with
  | [] => none
  | tpl :: rest => some (mergeCore tpl rest usernames)

/-- The merged day built for a template day once the accumulated map is
fixed. -/
def mdayOf (cmap : List (String × Nat)) (day : Day) : MDay :=
  { date := day.date, contributionCount := getD0 cmap day.date,
    contributionLevel := getLevel (getD0 cmap day.date) }

/-- Total contributions with date `d` in a list of days. -/
def daySum (l : List Day) (d : String) : Nat :=
  (l.map (fun day => if day.date = d then day.contributionCount else 0)).sum

/-- Total contributions of one calendar on date `d` (all occurrences). -/
def calSum (cal : Calendar) (d : String) : Nat :=
  (cal.weeks.map (fun w => daySum w.contributionDays d)).sum

/-- All days of a calendar, in calendar order. -/
def flatDays (cal : Calendar) : List Day :=
  (cal.weeks.map Week.contributionDays).flatten

/-- The individual count of an account on date `d`: the count of the first
day carrying that date, or 0 when the account has no data for `d`. -/
def indCount (cal : Calendar) (d : String) : Nat :=
  (((flatDays cal).find? (fun day => day.date == d)).map Day.contributionCount).getD 0

/-! ### Themes and colors -/

/-- A theme palette (`THEMES` entries, lines 179-271). -/
structure Theme where
  background : String
  yearLabel : String
  monthLabel : String
  dayLabel : String
  levels : Level → String

/-- `THEMES.dark`. -/
def darkTheme : Theme :=
  { background := "#0d1117", yearLabel := "#f0f6fc",
    monthLabel := "#8b949e", dayLabel := "#8b949e",
    levels := fun
      | Level.NONE => "#161b22"
      | Level.FIRST_QUARTILE => "#0e4429"
      | Level.SECOND_QUARTILE => "#006d32"
      | Level.THIRD_QUARTILE => "#26a641"
      | Level.FOURTH_QUARTILE => "#39d353" }

/-- `THEMES.light`. -/
def lightTheme : Theme :=
  { background := "#ffffff", yearLabel := "#24292f",
    monthLabel := "#57606a", dayLabel := "#57606a",
    levels := fun
      | Level.NONE => "#ebedf0"
      | Level.FIRST_QUARTILE => "#9be9a8"
      | Level.SECOND_QUARTILE => "#40c463"
      | Level.THIRD_QUARTILE => "#30a14e"
      | Level.FOURTH_QUARTILE => "#216e39" }

/-- `THEMES["solarized-dark"]`. -/
def solarizedDarkTheme : Theme :=
  { background := "#002b36", yearLabel := "#839496",
    monthLabel := "#839496", dayLabel := "#839496",
    levels := fun
      | Level.NONE => "#073642"
      | Level.FIRST_QUARTILE => "#268bd2"
      | Level.SECOND_QUARTILE => "#2aa198"
      | Level.THIRD_QUARTILE => "#859900"
      | Level.FOURTH_QUARTILE => "#b58900" }

/-- `THEMES["solarized-light"]`. -/
def solarizedLightTheme : Theme :=
  { background := "#fdf6e3", yearLabel := "#657b83",
    monthLabel := "#657b83", dayLabel := "#657b83",
    levels := fun
      | Level.NONE => "#eee8d5"
      | Level.FIRST_QUARTILE => "#268bd2"
      | Level.SECOND_QUARTILE => "#2aa198"
      | Level.THIRD_QUARTILE => "#859900"
      | Level.FOURTH_QUARTILE => "#b58900" }

/-- `THEMES["nord-polar-night"]`. -/
def nordPolarNightTheme : Theme :=
  { background := "#2e3440", yearLabel := "#d8dee9",
    monthLabel := "#d8dee9", dayLabel := "#d8dee9",
    levels := fun
      | Level.NONE => "#3b4252"
      | Level.FIRST_QUARTILE => "#434c5e"
      | Level.SECOND_QUARTILE => "#4c566a"
      | Level.THIRD_QUARTILE => "#5e81ac"
      | Level.FOURTH_QUARTILE => "#88c0d0" }

/-- `THEMES["nord-frost"]`. -/
def nordFrostTheme : Theme :=
  { background := "#2e3440", yearLabel := "#d8dee9",
    monthLabel := "#d8dee9", dayLabel := "#d8dee9",
    levels := fun
      | Level.NONE => "#3b4252"
      | Level.FIRST_QUARTILE => "#8fbcbb"
      | Level.SECOND_QUARTILE => "#88c0d0"
      | Level.THIRD_QUARTILE => "#81a1c1"
      | Level.FOURTH_QUARTILE => "#5e81ac" }

/-- `THEMES["nord-aurora"]`. -/
def nordAuroraTheme : Theme :=
  { background := "#2e3440", yearLabel := "#d8dee9",
    monthLabel := "#d8dee9", dayLabel := "#d8dee9",
    levels := fun
      | Level.NONE => "#3b4252"
      | Level.FIRST_QUARTILE => "#a3be8c"
      | Level.SECOND_QUARTILE => "#ebcb8b"
      | Level.THIRD_QUARTILE => "#d08770"
      | Level.FOURTH_QUARTILE => "#bf616a" }

/-- The `THEMES` table (lines 179-271) as a name lookup; `none` models an
absent property. -/
def THEMES (name : String) : Option Theme :=
  if name = "dark" then some darkTheme
  else if name = "light" then some lightTheme
  else if name = "solarized-dark" then some solarizedDarkTheme
  else if name = "solarized-light" then some solarizedLightTheme
  else if name = "nord-polar-night" then some nordPolarNightTheme
  else if name = "nord-frost" then some nordFrostTheme
  else if name = "nord-aurora" then some nordAuroraTheme
  else none

/-- Theme resolution as done at both output boundaries
(`THEMES[theme]?.levels || THEMES.dark.levels` in `getLevelColor`, and
`THEMES[theme] || THEMES.dark` in `generateCompleteSVG`). -/
def resolveTheme (name : String) : Theme :=
  (THEMES name).getD darkTheme

/-- `getLevelColor` from `src/index.js` (lines 273-276); the
`colors[level] || colors.NONE` fallback fires only on a falsy (empty)
color string. -/
def getLevelColor (level : Level) (theme : String) : String :=
  let colors := ((THEMES theme).map Theme.levels).getD darkTheme.levels
  let c := colors level
  if c = "" then colors Level.NONE else c

/-! ### Escaping, date formatting, tooltips -/

/-- JavaScript `String.prototype.trim()`: drop whitespace from both ends.
(Implemented over the character list so that it evaluates inside the
kernel; extensionally the same as `String.trim`.) -/
def jsTrim (s : String) : String :=
  String.mk (((s.data.dropWhile Char.isWhitespace).reverse.dropWhile
    Char.isWhitespace).reverse)

/-- JavaScript `String.prototype.split(sep)` for a one-character
separator, over character lists: `"a,,b" ↦ ["a", "", "b"]`, `"" ↦ [""]`. -/
def splitChar (c : Char) : List Char → List (List Char)
  | [] => [[]]
  | x :: xs =>
    let r := splitChar c xs
    if x = c then [] :: r
    else
      match r with
      | h :: t => (x :: h) :: t
      | [] => [[x]]

/-- JavaScript `s.split(sep)` for a one-character separator string. -/
def splitS (c : Char) (s : String) : List String :=
  (splitChar c s.data).map String.mk

/-- Parse a non-empty all-digit character list into a number. -/
def digitsToNat? (l : List Char) : Option Nat :=
  if l ≠ [] ∧ l.all Char.isDigit then
    some (l.foldl (fun a c => a * 10 + (c.toNat - 48)) 0)
  else none

/-- The apostrophe character. -/
def apos : Char := Char.ofNat 39

/-- The per-character replacement of `escapeXml` (lines 278-293). -/
def escChar (c : Char) : List Char :=
  if c = '<' then ['&', 'l', 't', ';']
  else if c = '>' then ['&', 'g', 't', ';']
  else if c = '&' then ['&', 'a', 'm', 'p', ';']
  else if c = apos then ['&', 'a', 'p', 'o', 's', ';']
  else if c = '"' then ['&', 'q', 'u', 'o', 't', ';']
  else [c]

/-- The five entity replacements, as character lists. -/
def entityList : List (List Char) :=
  [['&', 'l', 't', ';'], ['&', 'g', 't', ';'], ['&', 'a', 'm', 'p', ';'],
   ['&', 'a', 'p', 'o', 's', ';'], ['&', 'q', 'u', 'o', 't', ';']]

/-- `escapeXml` from `src/index.js` (lines 278-293): replace every
occurrence of the five markup characters with its entity. -/
def escapeXml (s : String) : String :=
  String.mk ((s.data.map escChar).flatten)

/-- The month component of an ISO `YYYY-MM-DD` date string.  Models the
UTC month of `new Date(dateString)` for the well-formed dates produced by
the GitHub API (Cloudflare Workers run with a UTC local time). -/
def monthOfDate (s : String) : Nat :=
  (digitsToNat? ((splitChar '-' s.data).getD 1 [])).getD 0

/-- The day-of-month component of an ISO `YYYY-MM-DD` date string
(`date.getDate()`), without leading zero. -/
def dayOfDate (s : String) : Nat :=
  (digitsToNat? ((splitChar '-' s.data).getD 2 [])).getD 0

/-- The `en-US` short month names used by
`toLocaleDateString("en-US", { month: "short" })`; out-of-range months
(unreachable for well-formed dates) give the empty string. -/
def monthShortName : Nat → String
  | 1 => "Jan"
  | 2 => "Feb"
  | 3 => "Mar"
  | 4 => "Apr"
  | 5 => "May"
  | 6 => "Jun"
  | 7 => "Jul"
  | 8 => "Aug"
  | 9 => "Sep"
  | 10 => "Oct"
  | 11 => "Nov"
  | 12 => "Dec"
  | _ => ""

/-- `formatDate` from `src/index.js` (lines 295-300). -/
def formatDate (dateString : String) : String :=
  monthShortName (monthOfDate dateString) ++ " " ++ toString (dayOfDate dateString)

/-- The per-user line of `generateTooltipContent` (lines 307-310). -/
def tooltipLine (userContribs : List (String × Nat)) (username : String) : String :=
  let count := (getA userContribs username).getD 0
  if count = 0 then username ++ " no contributions"
  else username ++ " " ++ toString count ++ " contribution"
         ++ (if count ≠ 1 then "s" else "")

/-- `generateTooltipContent` from `src/index.js` (lines 302-315). -/
def generateTooltipContent (date : String) (userContribs : List (String × Nat))
    (usernames : List String) : String :=
  let content := formatDate date ++ ":\n"
  jsTrim (usernames.foldl (fun acc u => acc ++ tooltipLine userContribs u ++ "\n") content)

/-- Concatenation of a list of strings (spec-side helper). -/
def concatStrings : List String → String
  | [] => ""
  | s :: rest => s ++ concatStrings rest

/-- The per-user tooltip line as the spec describes it: three explicit
cases — `no contributions` for count 0 (including an account absent from
the breakdown), `1 contribution` for count 1, and `{count} contributions`
otherwise.  Used to compare the code's line against the spec's wording. -/
def specTooltipLine (userContribs : List (String × Nat)) (username : String) : String :=
  let count := (getA userContribs username).getD 0
  if count = 0 then username ++ " no contributions"
  else if count = 1 then username ++ " 1 contribution"
  else username ++ " " ++ toString count ++ " contributions"

/-! ### Year graph rendering -/

/-- A single apostrophe as a string (used inside CSS font lists). -/
def sq : String := String.mk [apos]

/-- The contribution square markup emitted for one day
(`renderYearGraph`, lines 405-407). -/
def renderSquare (x y cellSize : Int) (color : String) (day : MDay)
    (tooltipContent : String) : String :=
  "<rect class=\"contribution-square\" x=\"" ++ toString x ++ "\" y=\""
    ++ toString y ++ "\" width=\"" ++ toString cellSize ++ "\" height=\""
    ++ toString cellSize ++ "\" fill=\"" ++ color ++ "\" data-date=\""
    ++ escapeXml day.date ++ "\" data-count=\"" ++ toString day.contributionCount
    ++ "\">\n" ++ "  <title>" ++ escapeXml tooltipContent ++ "</title>\n"
    ++ "</rect>\n"

/-- The month-label loop of `renderYearGraph` (lines 354-368).  A week with
no days is skipped entirely (the JavaScript `return` also skips the
`monthX` increment); a label is emitted when the week's first date's month
differs from the most recently emitted one and its day-of-month is at
most 7. -/
def monthLabels (labelY cellSize cellGap : Int) :
    List MWeek → String → Int → String
  | [], _, _ => ""
  | week :: restWeeks, currentMonth, monthX =>
    match week.contributionDays with
    | [] => monthLabels labelY cellSize cellGap restWeeks currentMonth monthX
    | d :: _ =>
      let month := monthShortName (monthOfDate d.date)
      if month ≠ currentMonth ∧ dayOfDate d.date ≤ 7 then
        "<text x=\"" ++ toString monthX ++ "\" y=\"" ++ toString labelY
          ++ "\" class=\"month-label\">" ++ month ++ "</text>\n"
          ++ monthLabels labelY cellSize cellGap restWeeks month
              (monthX + cellSize + cellGap)
      else
        monthLabels labelY cellSize cellGap restWeeks currentMonth
          (monthX + cellSize + cellGap)

/-- `renderYearGraph` from `src/index.js` (lines 328-412); returns the SVG
fragment together with the graph width and height. -/
def renderYearGraph (calendar : MergedCalendar) (year : Int)
    (usernames : List String) (xOffset yOffset : Int) (theme : String)
    (padding : Int) : String × Int × Int :=
  let cellSize : Int := 10
  let cellGap : Int := 3
  let yearLabelHeight : Int := 20
  let monthLabelHeight : Int := 15
  let dayLabelWidth : Int := 30
  let weeks := calendar.weeks
  let graphWidth := dayLabelWidth + (weeks.length : Int) * (cellSize + cellGap)
  let graphHeight := yearLabelHeight + monthLabelHeight + 7 * (cellSize + cellGap)
  let yearLabel := "<text x=\"" ++ toString (xOffset + padding) ++ "\" y=\""
    ++ toString (yOffset + padding + 14) ++ "\" class=\"year-label\">"
    ++ toString year ++ "</text>\n"
  let months := monthLabels (yOffset + padding + yearLabelHeight + 10)
    cellSize cellGap weeks "" (xOffset + padding + dayLabelWidth)
  let dayLabelNames : List String := ["", "Mon", "", "Wed", "", "Fri", ""]
  let dayLabelText := String.join (dayLabelNames.enum.map (fun p =>
    if p.2 = "" then ""
    else "<text x=\"" ++ toString (xOffset + padding) ++ "\" y=\""
      ++ toString (yOffset + padding + yearLabelHeight + monthLabelHeight
            + (p.1 : Int) * (cellSize + cellGap) + cellSize - 2)
      ++ "\" class=\"day-label\">" ++ p.2 ++ "</text>\n"))
  let squares := String.join (weeks.enum.map (fun wp =>
    String.join (wp.2.contributionDays.enum.map (fun dp =>
      let x := xOffset + padding + dayLabelWidth + (wp.1 : Int) * (cellSize + cellGap)
      let y := yOffset + padding + yearLabelHeight + monthLabelHeight
        + (dp.1 : Int) * (cellSize + cellGap)
      let color := getLevelColor dp.2.contributionLevel theme
      let tooltipContent := generateTooltipContent dp.2.date
        ((getA calendar.userContributions dp.2.date).getD []) usernames
      renderSquare x y cellSize color dp.2 tooltipContent))))
  (yearLabel ++ months ++ dayLabelText ++ squares, graphWidth, graphHeight)

/-- `generateSVGStyles` from `src/index.js` (lines 419-448). -/
def generateSVGStyles (themeColors : Theme) : String :=
  "\n    .header-label \x7b\n      font-family: -apple-system, BlinkMacSystemFont, "
    ++ sq ++ "Segoe UI" ++ sq ++ ", Helvetica, Arial, sans-serif;\n      font-size: 12px;\n      font-weight: 600;\n      fill: "
    ++ themeColors.yearLabel
    ++ ";\n    \x7d\n    .year-label \x7b\n      font-family: -apple-system, BlinkMacSystemFont, "
    ++ sq ++ "Segoe UI" ++ sq ++ ", Helvetica, Arial, sans-serif;\n      font-size: 14px;\n      font-weight: 600;\n      fill: "
    ++ themeColors.yearLabel
    ++ ";\n    \x7d\n    .month-label \x7b\n      font-family: -apple-system, BlinkMacSystemFont, "
    ++ sq ++ "Segoe UI" ++ sq ++ ", Helvetica, Arial, sans-serif;\n      font-size: 10px;\n      fill: "
    ++ themeColors.monthLabel
    ++ ";\n    \x7d\n    .day-label \x7b\n      font-family: -apple-system, BlinkMacSystemFont, "
    ++ sq ++ "Segoe UI" ++ sq ++ ", Helvetica, Arial, sans-serif;\n      font-size: 9px;\n      fill: "
    ++ themeColors.dayLabel
    ++ ";\n    \x7d\n    .contribution-square \x7b\n      shape-rendering: geometricPrecision;\n      outline: 1px solid rgba(27, 31, 35, 0.06);\n      outline-offset: -1px;\n    \x7d"

/-- `generateCompleteSVG` from `src/index.js` (lines 460-478). -/
def generateCompleteSVG (width height : Int) (usernames : List String)
    (graphSVGs : List String) (theme : String) (padding : Int) : String :=
  let themeColors := (THEMES theme).getD darkTheme
  let userListText := "Users - " ++ String.intercalate ", " usernames
  "<?xml version=\"1.0\" encoding=\"UTF-8\"?>\n<svg width=\""
    ++ toString width ++ "\" height=\"" ++ toString height
    ++ "\" xmlns=\"http://www.w3.org/2000/svg\" xmlns:xlink=\"http://www.w3.org/1999/xlink\">\n  <style>"
    ++ generateSVGStyles themeColors
    ++ "</style>\n  <rect width=\"100%\" height=\"100%\" fill=\""
    ++ themeColors.background ++ "\"/>\n  <text x=\"" ++ toString padding
    ++ "\" y=\"" ++ toString (padding + 16) ++ "\" class=\"header-label\">"
    ++ escapeXml userListText ++ "</text>\n  "
    ++ String.intercalate "\n" graphSVGs ++ "\n</svg>"

/-- One year block passed to `generateSVGVertical`. -/
structure YearDatum where
  year : Int
  calendar : MergedCalendar
deriving DecidableEq

/-- `generateSVGVertical` from `src/index.js` (lines 480-522).
`Math.max(...)` over the week counts is modelled with a fold from 0,
which agrees with the source whenever `yearData` is non-empty (the only
case the worker produces). -/
def generateSVGVertical (yearData : List YearDatum) (usernames : List String)
    (theme : String) : String :=
  let cellSize : Int := 10
  let cellGap : Int := 3
  let dayLabelWidth : Int := 30
  let graphSpacing : Int := 20
  let padding : Int := 10
  let headerHeight : Int := 25
  let bottomSpacing : Int := 15
  let maxWeeks : Int :=
    (yearData.map (fun yd => (yd.calendar.weeks.length : Int))).foldl max 0
  let width := padding + dayLabelWidth + maxWeeks * (cellSize + cellGap) + padding
  let r := yearData.enum.foldl
    (fun (st : Int × List String) p =>
      let res := renderYearGraph p.2.calendar p.2.year usernames 0 st.1 theme padding
      (st.1 + res.2.2 + (if p.1 + 1 < yearData.length then graphSpacing else 0),
       st.2 ++ [res.1]))
    (padding + headerHeight, [])
  let totalHeight := r.1 + padding + bottomSpacing
  generateCompleteSVG width totalHeight usernames r.2 theme padding

/-! ### The request handler -/

/-- JavaScript truthiness of an optional string (absent and empty are
falsy). -/
def truthyS : Option String → Bool
  | none => false
  | some s => s ≠ ""

/-- The value of a hexadecimal digit. -/
def hexDigitVal (c : Char) : Nat :=
  if c.isDigit then c.toNat - 48 else c.toLower.toNat - 87

/-- Hexadecimal digit test. -/
def isHexDigitJS (c : Char) : Bool :=
  c.isDigit || (97 ≤ c.toLower.toNat && c.toLower.toNat ≤ 102)

/-- JavaScript `parseInt(s)` (radix unspecified): skip leading whitespace,
optional sign, then either a `0x`/`0X` hexadecimal literal or the longest
leading run of decimal digits; `none` models `NaN`. -/
def parseIntJS (s : String) : Option Int :=
  let cs := s.data.dropWhile Char.isWhitespace
  let signed : Int × List Char :=
    match cs with
    | c :: rest =>
      if c = '-' then (-1, rest) else if c = '+' then (1, rest) else (1, cs)
    | [] => (1, [])
  let body := signed.2
  match body with
  | c1 :: c2 :: rest =>
    if c1 = '0' ∧ (c2 = 'x' ∨ c2 = 'X') then
      let ds := rest.takeWhile isHexDigitJS
      if ds = [] then none
      else some (signed.1 * (ds.foldl (fun a c => a * 16 + hexDigitVal c) 0 : Nat))
    else
      let ds := body.takeWhile Char.isDigit
      if ds = [] then none
      else some (signed.1 * (ds.foldl (fun a c => a * 10 + (c.toNat - 48)) 0 : Nat))
  | _ =>
    let ds := body.takeWhile Char.isDigit
    if ds = [] then none
    else some (signed.1 * (ds.foldl (fun a c => a * 10 + (c.toNat - 48)) 0 : Nat))

/-- The year-list loop of the handler (lines 623-629): starting at
year `currentYear - i`, push years while the budget lasts, breaking before
any year earlier than 2008. -/
def buildYearsGo (currentYear : Int) : Nat → Nat → List Int
  | _, 0 => []
  | i, Nat.succ k =>
    let year := currentYear - (i : Int)
    if year < 2008 then []
    else year :: buildYearsGo currentYear (i + 1) k

/-- The year list for a requested count. -/
def buildYears (currentYear : Int) (yearCount : Nat) : List Int :=
  buildYearsGo currentYear 0 yearCount

/-- The error message for an invalid years parameter (lines 613-619). -/
def yearsErrorMsg : String :=
  "Error: Invalid years parameter. Use ?years=N where N is a positive number"

/-- The fixed list of valid theme names (lines 587-595). -/
def validThemes : List String :=
  ["dark", "light", "solarized-dark", "solarized-light",
   "nord-polar-night", "nord-frost", "nord-aurora"]

/-- The error message for an invalid theme parameter (line 598). -/
def themeErrorMsg : String :=
  "Error: Invalid theme parameter. Valid options: \n- "
    ++ String.intercalate "\n- " validThemes

/-- The years-parameter handling of the handler (lines 606-633): reject a
`NaN` or below-1 count, otherwise build the year list; with no (or an
empty) parameter default to the current year. -/
def yearsFromParam (yearsParam : Option String) (currentYear : Int) :
    Except String (List Int) :=
  if truthyS yearsParam then
    match parseIntJS (jsTrim (yearsParam.getD "")) with
    | none => Except.error yearsErrorMsg
    | some yearCount =>
      if yearCount < 1 then Except.error yearsErrorMsg
      else Except.ok (buildYears currentYear yearCount.toNat)
  else Except.ok [currentYear]

/-- The additional users parsed from the `merge` parameter (lines 550-556):
split on commas, trim, drop empty entries and the primary user. -/
def additionalUsersOf (mergeParam : Option String) (primaryUser : String) :
    List String :=
  if truthyS mergeParam then
    ((splitS ',' (mergeParam.getD "")).map jsTrim).filter
      (fun u => decide (u ≠ "" ∧ u ≠ primaryUser))
  else []

/-- The authorized user list (lines 559-577): the primary user first, then
every additional user whose authorization check succeeded. -/
def authorizedUsersOf (primaryUser : String) (mergeParam : Option String)
    (authOracle : String → Bool) : List String :=
  primaryUser :: (additionalUsersOf mergeParam primaryUser).filter authOracle

/-- The worker environment (`env.GITHUB_TOKEN`, `env.PRIMARY_USER`). -/
structure Env where
  githubToken : Option String
  primaryUser : Option String

/-- A network call issued by the handler: a gist authorization check
(`verifyUserAuthorization`) or a contribution fetch
(`fetchContributions`). -/
inductive NetEvent where
  | authCheck (user : String)
  | fetchContrib (user : String) (year : Int)
deriving DecidableEq

/-- `true` exactly on authorization-check events. -/
def NetEvent.isAuthEvent : NetEvent → Bool
  | NetEvent.authCheck _ => true
  | NetEvent.fetchContrib _ _ => false

/-- An HTTP response (status and plain body). -/
structure HttpResponse where
  status : Nat
  body : String
deriving DecidableEq

/-- The message of the zero-authorized-users response (line 580). -/
def noAuthorizedMsg : String := "Error: No authorized users to display"

/-- The generic message of the outer `catch` wrapper (lines 665-674). -/
def unexpectedErrorMsg : String :=
  "An error occurred while generating the contribution graph"

/-- `Promise.all` over already-issued calls: succeed with every result, or
fail with the first rejection. -/
def traverseExcept {α : Type} : List (Except String α) → Except String (List α)
  | [] => Except.ok []
  | Except.error e :: _ => Except.error e
  | Except.ok a :: rest => (traverseExcept rest).map (fun l => a :: l)

/-- The body of the `fetch` handler after the two configuration guards
have passed (lines 547-674), modelled as a deterministic function of the
request parameters, the environment, the current year, an authorization
oracle (the boolean outcome of each `verifyUserAuthorization` call) and a
data oracle (the outcome of each `fetchContributions` call: a calendar,
or an error for a rejected fetch).  Alongside the response it returns the
ordered list of network calls issued.  All fetch calls are created
eagerly before the `Promise.all` joins (lines 636-645), so the trace
carries the full fan-out even when a fetch fails and the outer `catch`
(lines 665-674) turns the failure into a generic 500. -/
def handlerMain (env : Env) (mergeParam yearsParam : Option String)
    (themeParam : String) (currentYear : Int) (authOracle : String → Bool)
    (dataOracle : String → Int → Except String Calendar) :
    List NetEvent × HttpResponse :=
  let primaryUser := jsTrim (env.primaryUser.getD "")
  let additionalUsers := additionalUsersOf mergeParam primaryUser
  let authEvents := additionalUsers.map NetEvent.authCheck
  let authorizedUsers := authorizedUsersOf primaryUser mergeParam authOracle
  if authorizedUsers.length = 0 then
    (authEvents, { status := 400, body := noAuthorizedMsg })
  else if themeParam ∉ validThemes then
    (authEvents, { status := 400, body := themeErrorMsg })
  else
    match yearsFromParam yearsParam currentYear with
    | Except.error m => (authEvents, { status := 400, body := m })
    | Except.ok years =>
      let fetchEvents := years.foldr
        (fun y acc => authorizedUsers.map (fun u => NetEvent.fetchContrib u y) ++ acc) []
      match traverseExcept (years.map (fun y =>
          (traverseExcept (authorizedUsers.map (fun u => dataOracle u y))).map
            (fun dataArray =>
              ({ year := y,
                 calendar := (mergeContributions dataArray authorizedUsers).getD
                   { totalContributions := 0, weeks := [], userContributions := [] }
               } : YearDatum)))) with
      | Except.error _ =>
        (authEvents ++ fetchEvents,
         { status := 500, body := unexpectedErrorMsg })
      | Except.ok yearData =>
        (authEvents ++ fetchEvents,
         { status := 200,
           body := generateSVGVertical yearData authorizedUsers themeParam })

/-- The `fetch` handler of `src/index.js` (lines 525-674): resolve the
theme default, check the two configuration variables, then run the main
pipeline; a rejected contribution fetch surfaces as the `catch` wrapper's
generic 500 inside `handlerMain`. -/
def handler (env : Env) (mergeParam yearsParam themeParamRaw : Option String)
    (currentYear : Int) (authOracle : String → Bool)
    (dataOracle : String → Int → Except String Calendar) :
    List NetEvent × HttpResponse :=
  let themeParam :=
    if truthyS themeParamRaw then themeParamRaw.getD "" else "dark"
  if ¬ truthyS env.githubToken then
    ([], { status := 500, body := "Error: GITHUB_TOKEN not configured." })
  else if ¬ truthyS env.primaryUser then
    ([], { status := 500, body := "Error: PRIMARY_USER not configured." })
  else
    handlerMain env mergeParam yearsParam themeParam currentYear authOracle
      dataOracle

/-! ### Concrete inputs used by witnesses and counterexamples -/

/-- Example first (template) calendar: one week, two days. -/
def exCal1 : Calendar :=
  { totalContributions := 3,
    weeks := [ { contributionDays :=
      [ { date := "2024-06-01", contributionCount := 3 },
        { date := "2024-06-02", contributionCount := 0 } ] } ] }

/-- Example second calendar covering the same dates with a different week
partition. -/
def exCal2 : Calendar :=
  { totalContributions := 9,
    weeks :=
      [ { contributionDays := [ { date := "2024-06-01", contributionCount := 7 } ] },
        { contributionDays := [ { date := "2024-06-02", contributionCount := 2 } ] } ] }

/-- The merge of `exCal1` and `exCal2` for users `a` and `b`. -/
def exMerged : MergedCalendar :=
  { totalContributions := 12,
    weeks := [ { contributionDays :=
      [ { date := "2024-06-01", contributionCount := 10,
          contributionLevel := Level.THIRD_QUARTILE },
        { date := "2024-06-02", contributionCount := 2,
          contributionLevel := Level.FIRST_QUARTILE } ] } ],
    userContributions :=
      [ ("2024-06-01", [("a", 3), ("b", 7)]),
        ("2024-06-02", [("a", 0), ("b", 2)]) ] }

/-- Example environment with both required variables configured. -/
def exEnv : Env := { githubToken := some "t", primaryUser := some "p" }

/-- An authorization oracle accepting everyone. -/
def allowAll : String → Bool := fun _ => true

/-- A data oracle returning an empty calendar for every fetch. -/
def emptyOracle : String → Int → Except String Calendar :=
  fun _ _ => Except.ok { totalContributions := 0, weeks := [] }

/-- A data oracle whose every fetch rejects (upstream failure). -/
def failingOracle : String → Int → Except String Calendar :=
  fun _ _ => Except.error "HTTP 404: Not Found"

/-- The first line of a string (everything before the first newline). -/
def firstLine (s : String) : String :=
  String.mk (s.data.takeWhile (fun c => c ≠ '\n'))

/-! ## Lemmas about the association-list operations -/

theorem getA_setA_self {α : Type} (m : List (String × α)) (k : String) (v : α) :
    getA (setA m k v) k = some v := by
  induction m with
  | nil => simp [getA, setA]
  | cons p t ih =>
    obtain ⟨a, b⟩ := p
    by_cases hak : a = k
    · simp [setA, getA, hak]
    · simp [setA, getA, hak, ih]

theorem getA_setA_ne {α : Type} (m : List (String × α)) (k ksep : String) (v : α)
    (h : ksep ≠ k) : getA (setA m k v) ksep = getA m ksep := by
  have hk : k ≠ ksep := fun hh => h hh.symm
  induction m with
  | nil => simp [getA, setA, hk]
  | cons p t ih =>
    obtain ⟨a, b⟩ := p
    by_cases hak : a = k
    · have hks : a ≠ ksep := by rw [hak]; exact hk
      simp [setA, getA, hak, hks, hk]
    · by_cases has : a = ksep
      · simp [setA, getA, hak, has, h]
      · simp [setA, getA, hak, has, ih]

theorem getD0_stepDay (u : String) (st : AccState) (day : Day) (d : String) :
    getD0 (stepDay u st day).cmap d
      = getD0 st.cmap d + (if day.date = d then day.contributionCount else 0) := by
  by_cases hd : day.date = d
  · subst hd
    simp [stepDay, getD0, getA_setA_self]
  · simp [stepDay, getD0, hd, getA_setA_ne _ _ _ _ (fun hh => hd hh.symm)]

theorem getD0_foldl_stepDay (u : String) (d : String) :
    ∀ (l : List Day) (st : AccState),
      getD0 (l.foldl (stepDay u) st).cmap d = getD0 st.cmap d + daySum l d
  | [], st => by simp [daySum]
  | day :: l, st => by
    rw [List.foldl_cons, getD0_foldl_stepDay u d l, getD0_stepDay]
    simp [daySum, Nat.add_assoc]

theorem getD0_foldl_stepWeek (u : String) (d : String) :
    ∀ (ws : List Week) (st : AccState),
      getD0 (ws.foldl (stepWeek u) st).cmap d
        = getD0 st.cmap d + (ws.map (fun w => daySum w.contributionDays d)).sum
  | [], st => by simp
  | w :: ws, st => by
    rw [List.foldl_cons, getD0_foldl_stepWeek u d ws]
    unfold stepWeek
    rw [getD0_foldl_stepDay]
    simp [Nat.add_assoc]

theorem getD0_foldl_cals (us : List String) (d : String) :
    ∀ (pairs : List (Nat × Calendar)) (st : AccState),
      getD0 (pairs.foldl
          (fun st p => p.2.weeks.foldl (stepWeek (us.getD p.1 "undefined")) st)
          st).cmap d
        = getD0 st.cmap d + (pairs.map (fun p => calSum p.2 d)).sum
  | [], st => by simp
  | p :: pairs, st => by
    rw [List.foldl_cons, getD0_foldl_cals us d pairs, getD0_foldl_stepWeek]
    simp [calSum, Nat.add_assoc]

theorem accumulate_cmap (cals : List Calendar) (us : List String) (d : String) :
    getD0 (accumulate cals us).cmap d = (cals.map (fun c => calSum c d)).sum := by
  unfold accumulate
  rw [getD0_foldl_cals]
  have h1 : cals.enum.map (fun p => calSum p.2 d)
      = (cals.enum.map Prod.snd).map (fun c => calSum c d) := by
    rw [List.map_map]; rfl
  rw [h1, List.enum_map_snd]
  simp [getD0, getA]

/-! ## Lemmas about the template walk -/

theorem foldl_mergeDayStep (cmap : List (String × Nat)) :
    ∀ (l : List Day) (t : Nat) (ds : List MDay),
      l.foldl (mergeDayStep cmap) (t, ds)
        = (t + (l.map (fun day => getD0 cmap day.date)).sum,
           ds ++ l.map (mdayOf cmap))
  | [], t, ds => by simp
  | day :: l, t, ds => by
    rw [List.foldl_cons]
    show (l.foldl (mergeDayStep cmap)
        (t + getD0 cmap day.date, ds ++ [mdayOf cmap day])) = _
    rw [foldl_mergeDayStep cmap l]
    simp [Nat.add_assoc]

theorem foldl_mergeWeekStep (cmap : List (String × Nat)) :
    ∀ (ws : List Week) (t : Nat) (ms : List MWeek),
      ws.foldl (mergeWeekStep cmap) (t, ms)
        = (t + (ws.map (fun w =>
              (w.contributionDays.map (fun day => getD0 cmap day.date)).sum)).sum,
           ms ++ ws.map (fun w =>
              { contributionDays := w.contributionDays.map (mdayOf cmap) }))
  | [], t, ms => by simp
  | w :: ws, t, ms => by
    rw [List.foldl_cons]
    show (ws.foldl (mergeWeekStep cmap) (mergeWeekStep cmap (t, ms) w)) = _
    have hw : mergeWeekStep cmap (t, ms) w
        = (t + (w.contributionDays.map (fun day => getD0 cmap day.date)).sum,
           ms ++ [{ contributionDays := w.contributionDays.map (mdayOf cmap) }]) := by
      unfold mergeWeekStep
      rw [foldl_mergeDayStep]
      simp
    rw [hw, foldl_mergeWeekStep cmap ws]
    simp [Nat.add_assoc]

/-- Closed form of `mergeCore`: the total is the sum of the looked-up
counts over the template, and the weeks are the template weeks with each
day replaced by its merged day. -/
theorem mergeCore_eq (tpl : Calendar) (rest : List Calendar) (us : List String) :
    mergeCore tpl rest us
      = { totalContributions :=
            (tpl.weeks.map (fun w =>
              (w.contributionDays.map (fun day =>
                getD0 (accumulate (tpl :: rest) us).cmap day.date)).sum)).sum,
          weeks := tpl.weeks.map (fun w =>
            { contributionDays :=
                w.contributionDays.map (mdayOf (accumulate (tpl :: rest) us).cmap) }),
          userContributions := (accumulate (tpl :: rest) us).umap } := by
  simp only [mergeCore]
  rw [foldl_mergeWeekStep]
  simp

/-! ## Lemmas relating sums, `find?` and uniqueness of dates -/

theorem daySum_eq_zero_of_not_mem (d : String) :
    ∀ (l : List Day), d ∉ l.map Day.date → daySum l d = 0
  | [], _ => by simp [daySum]
  | day :: l, h => by
    simp only [List.map_cons, List.mem_cons] at h
    push_neg at h
    have hd : day.date ≠ d := fun hh => h.1 hh.symm
    have := daySum_eq_zero_of_not_mem d l h.2
    simp [daySum, hd] at this ⊢
    exact this

theorem daySum_nodup_eq_find (d : String) :
    ∀ (l : List Day), (l.map Day.date).Nodup →
      daySum l d
        = ((l.find? (fun day => day.date == d)).map Day.contributionCount).getD 0
  | [], _ => by simp [daySum]
  | day :: l, h => by
    simp only [List.map_cons, List.nodup_cons] at h
    by_cases hd : day.date = d
    · subst hd
      have h0 : daySum l day.date = 0 := daySum_eq_zero_of_not_mem _ l h.1
      simp [daySum, List.find?_cons_of_pos] at h0 ⊢
      exact h0
    · have := daySum_nodup_eq_find d l h.2
      have hfind : List.find? (fun day => day.date == d) (day :: l)
          = List.find? (fun day => day.date == d) l := by
        rw [List.find?_cons_of_neg]
        simp [hd]
      rw [hfind, ← this]
      simp [daySum, hd]

theorem daySum_append (l1 l2 : List Day) (d : String) :
    daySum (l1 ++ l2) d = daySum l1 d + daySum l2 d := by
  simp [daySum]

theorem calSum_eq_daySum_flat (cal : Calendar) (d : String) :
    calSum cal d = daySum (flatDays cal) d := by
  unfold calSum flatDays
  induction cal.weeks with
  | nil => simp [daySum]
  | cons w ws ih => simp [List.flatten_cons, daySum_append, ih]

theorem calSum_nodup_eq_indCount (cal : Calendar) (d : String)
    (h : ((flatDays cal).map Day.date).Nodup) : calSum cal d = indCount cal d := by
  rw [calSum_eq_daySum_flat, daySum_nodup_eq_find d (flatDays cal) h]
  rfl

/-! ## Claim theorems -/

/-- C2: for every non-negative integer count, the derived activity level
is `NONE` iff the count is 0, `FIRST_QUARTILE` iff it is in `[1, 5)`,
`SECOND_QUARTILE` iff in `[5, 10)`, `THIRD_QUARTILE` iff in `[10, 20)`
and `FOURTH_QUARTILE` iff at least 20; in particular the boundary counts
0, 4, 5, 9, 10, 19, 20 map to the expected levels. -/
theorem getLevel_buckets :
    (∀ count : Nat,
        (getLevel count = Level.NONE ↔ count = 0)
      ∧ (getLevel count = Level.FIRST_QUARTILE ↔ 1 ≤ count ∧ count < 5)
      ∧ (getLevel count = Level.SECOND_QUARTILE ↔ 5 ≤ count ∧ count < 10)
      ∧ (getLevel count = Level.THIRD_QUARTILE ↔ 10 ≤ count ∧ count < 20)
      ∧ (getLevel count = Level.FOURTH_QUARTILE ↔ 20 ≤ count))
    ∧ getLevel 0 = Level.NONE ∧ getLevel 4 = Level.FIRST_QUARTILE
    ∧ getLevel 5 = Level.SECOND_QUARTILE ∧ getLevel 9 = Level.SECOND_QUARTILE
    ∧ getLevel 10 = Level.THIRD_QUARTILE ∧ getLevel 19 = Level.THIRD_QUARTILE
    ∧ getLevel 20 = Level.FOURTH_QUARTILE := by
  refine ⟨fun count => ?_, by decide, by decide, by decide, by decide,
    by decide, by decide, by decide⟩
  unfold getLevel
  split_ifs with h1 h2 h3 h4 <;> simp_all <;> omega

/-- C1: for every merged calendar produced by `mergeContributions`, the
`totalContributions` value equals the sum of the counts of all days of its
`weeks` structure; and when every input calendar carries each date at most
once (as the cover-the-year-exactly-once precondition guarantees), every
merged day's count is the sum over the input calendars of that account's
individual count on that date, with 0 for an account lacking the date. -/
theorem merge_sum_invariant (tpl : Calendar) (rest : List Calendar)
    (usernames : List String) (m : MergedCalendar)
    (h : mergeContributions (tpl :: rest) usernames = some m) :
    m.totalContributions
        = (m.weeks.map (fun w =>
            (w.contributionDays.map MDay.contributionCount).sum)).sum
      ∧ ((∀ cal ∈ tpl :: rest, ((flatDays cal).map Day.date).Nodup) →
          ∀ w ∈ m.weeks, ∀ day ∈ w.contributionDays,
            day.contributionCount
              = ((tpl :: rest).map (fun cal => indCount cal day.date)).sum) := by
  have hm : m = mergeCore tpl rest usernames := by
    simp only [mergeContributions, Option.some.injEq] at h
    exact h.symm
  subst hm
  rw [mergeCore_eq]
  constructor
  · simp [List.map_map, Function.comp_def, mdayOf]
  · intro hnodup w hw day hday
    simp only [List.mem_map] at hw
    obtain ⟨w0, hw0, rfl⟩ := hw
    simp only [List.mem_map] at hday
    obtain ⟨d0, hd0, rfl⟩ := hday
    show getD0 (accumulate (tpl :: rest) usernames).cmap d0.date = _
    rw [accumulate_cmap]
    congr 1
    refine List.map_congr_left (fun cal hc => ?_)
    exact calSum_nodup_eq_indCount cal _ (hnodup cal hc)

/-- C1 witness: the invariant instantiated at two concrete calendars with
different week partitions. -/
theorem merge_sum_invariant_witness :
    exMerged.totalContributions
        = (exMerged.weeks.map (fun w =>
            (w.contributionDays.map MDay.contributionCount).sum)).sum
      ∧ (∀ w ∈ exMerged.weeks, ∀ day ∈ w.contributionDays,
          day.contributionCount
            = ((exCal1 :: [exCal2]).map (fun cal => indCount cal day.date)).sum) := by
  have H := merge_sum_invariant exCal1 [exCal2] ["a", "b"] exMerged (by decide)
  exact ⟨H.1, H.2 (by decide)⟩

/-- C3: for every non-empty input list, the merged week/day structure has
exactly the dates and ordering of the first input calendar (one merged day
per template day, same week partition), whatever the other calendars look
like; and a template date absent from the accumulated per-date map yields
count 0 rather than a failure. -/
theorem merge_template_fidelity (tpl : Calendar) (rest : List Calendar)
    (usernames : List String) (m : MergedCalendar)
    (h : mergeContributions (tpl :: rest) usernames = some m) :
    m.weeks.map (fun w => w.contributionDays.map MDay.date)
        = tpl.weeks.map (fun w => w.contributionDays.map Day.date)
      ∧ ∀ w ∈ m.weeks, ∀ day ∈ w.contributionDays,
          getA (accumulate (tpl :: rest) usernames).cmap day.date = none →
          day.contributionCount = 0 := by
  have hm : m = mergeCore tpl rest usernames := by
    simp only [mergeContributions, Option.some.injEq] at h
    exact h.symm
  subst hm
  rw [mergeCore_eq]
  constructor
  · simp [List.map_map, Function.comp_def, mdayOf]
  · intro w hw day hday habsent
    simp only [List.mem_map] at hw
    obtain ⟨w0, hw0, rfl⟩ := hw
    simp only [List.mem_map] at hday
    obtain ⟨d0, hd0, rfl⟩ := hday
    show getD0 (accumulate (tpl :: rest) usernames).cmap d0.date = 0
    have : getA (accumulate (tpl :: rest) usernames).cmap d0.date = none := habsent
    simp [getD0, this]

/-- C3 witness: template fidelity instantiated at the concrete calendars.
The second calendar uses a different week partition, yet the merged
structure follows the first calendar's partition. -/
theorem merge_template_fidelity_witness :
    exMerged.weeks.map (fun w => w.contributionDays.map MDay.date)
      = exCal1.weeks.map (fun w => w.contributionDays.map Day.date) :=
  (merge_template_fidelity exCal1 [exCal2] ["a", "b"] exMerged (by decide)).1

/-- C8: for every theme name outside the fixed set of 7 registered names,
theme resolution yields the dark palette in its entirety: the resolved
theme is exactly `darkTheme` (background and label colors included), and
every level color is the dark theme's level color. -/
theorem theme_fallback_dark (name : String) (h : name ∉ validThemes) :
    resolveTheme name = darkTheme
      ∧ (∀ level, getLevelColor level name = darkTheme.levels level) := by
  have hT : THEMES name = none := by
    simp only [validThemes, List.mem_cons, List.not_mem_nil, or_false] at h
    push_neg at h
    obtain ⟨h1, h2, h3, h4, h5, h6, h7⟩ := h
    simp [THEMES, h1, h2, h3, h4, h5, h6, h7]
  refine ⟨by simp [resolveTheme, hT], fun level => ?_⟩
  cases level <;> simp [getLevelColor, hT, darkTheme]

/-- C8 witness: the unregistered name `bogus` resolves to the dark palette. -/
theorem theme_fallback_dark_witness :
    resolveTheme "bogus" = darkTheme
      ∧ (∀ level, getLevelColor level "bogus" = darkTheme.levels level) :=
  theme_fallback_dark "bogus" (by decide)

/-- C9: the composed document's header text is the literal
`Users - ` followed by the account identifiers in the requested order
separated by comma-space, with the whole header passed through the
five-character markup escaping. -/
theorem header_text_spec (width height : Int) (usernames : List String)
    (graphSVGs : List String) (theme : String) (padding : Int) :
    ∃ pre post,
      generateCompleteSVG width height usernames graphSVGs theme padding
        = pre ++ escapeXml ("Users - " ++ String.intercalate ", " usernames) ++ post := by
  refine ⟨"<?xml version=\"1.0\" encoding=\"UTF-8\"?>\n<svg width=\""
      ++ toString width ++ "\" height=\"" ++ toString height
      ++ "\" xmlns=\"http://www.w3.org/2000/svg\" xmlns:xlink=\"http://www.w3.org/1999/xlink\">\n  <style>"
      ++ generateSVGStyles ((THEMES theme).getD darkTheme)
      ++ "</style>\n  <rect width=\"100%\" height=\"100%\" fill=\""
      ++ ((THEMES theme).getD darkTheme).background ++ "\"/>\n  <text x=\""
      ++ toString padding ++ "\" y=\"" ++ toString (padding + 16)
      ++ "\" class=\"header-label\">",
    "</text>\n  " ++ String.intercalate "\n" graphSVGs ++ "\n</svg>", ?_⟩
  simp only [generateCompleteSVG, String.append_assoc]

/-! ## Tooltip lemmas (claim C6) -/

theorem tooltipLine_eq_spec (uc : List (String × Nat)) (u : String) :
    tooltipLine uc u = specTooltipLine uc u := by
  unfold tooltipLine specTooltipLine
  cases hgc : (getA uc u).getD 0 with
  | zero => simp
  | succ n =>
    cases n with
    | zero =>
      simp only [Nat.succ_ne_zero, if_false, ne_eq, not_true_eq_false, if_true]
      norm_num
      rw [String.append_assoc, String.append_assoc]
      exact congrArg (fun t => u ++ t) (by decide)
    | succ m =>
      have h0 : m + 1 + 1 ≠ 0 := by omega
      have h1 : m + 1 + 1 ≠ 1 := by omega
      simp only [h0, h1, if_false, ne_eq, if_true, not_false_eq_true]
      rw [String.append_assoc (u ++ " " ++ toString (m + 1 + 1))]
      exact congrArg (fun t => u ++ " " ++ toString (m + 1 + 1) ++ t) (by decide)

theorem tooltip_foldl (uc : List (String × Nat)) :
    ∀ (us : List String) (acc : String),
      us.foldl (fun a u => a ++ tooltipLine uc u ++ "\n") acc
        = acc ++ concatStrings (us.map (fun u => tooltipLine uc u ++ "\n"))
  | [], acc => by simp [concatStrings]
  | u :: us, acc => by
    rw [List.foldl_cons, tooltip_foldl uc us]
    simp [concatStrings, String.append_assoc]

/-- C6 counterexample: at date `2024-06-01` with one account, the
tooltip's first line is `Jun 1:` — the formatted date followed by a
colon — not the bare formatted date `Jun 1` that the claim states. -/
theorem tooltip_first_line_cex :
    firstLine (generateTooltipContent "2024-06-01" [] ["alice"])
        = formatDate "2024-06-01" ++ ":"
      ∧ firstLine (generateTooltipContent "2024-06-01" [] ["alice"])
        ≠ formatDate "2024-06-01" := by
  decide

/-- C6 (amended): the tooltip is built from a first line consisting of the
formatted date (short month name, day of month without leading zero)
followed by a colon, then one line per account in the given order —
`no contributions` for breakdown value 0 (also for an absent account),
`1 contribution` for 1, `{count} contributions` otherwise — each line
terminated by a newline, with surrounding whitespace trimmed (removing the
final newline).  The closed conjuncts pin the evaluated output. -/
theorem tooltip_content_spec :
    (∀ (date : String) (uc : List (String × Nat)) (usernames : List String),
      generateTooltipContent date uc usernames
        = jsTrim ((formatDate date ++ ":") ++ "\n"
            ++ concatStrings (usernames.map (fun u => specTooltipLine uc u ++ "\n"))))
    ∧ generateTooltipContent "2024-06-01" [("alice", 3)] ["alice", "bob"]
        = "Jun 1:\nalice 3 contributions\nbob no contributions"
    ∧ generateTooltipContent "2024-03-05" [("a", 1)] ["a"] = "Mar 5:\na 1 contribution"
    ∧ formatDate "2024-06-01" = "Jun 1"
    ∧ formatDate "2024-12-09" = "Dec 9" := by
  refine ⟨fun date uc usernames => ?_, by decide, by decide, by decide, by decide⟩
  simp only [generateTooltipContent]
  rw [tooltip_foldl]
  have hmap : usernames.map (fun u => tooltipLine uc u ++ "\n")
      = usernames.map (fun u => specTooltipLine uc u ++ "\n") :=
    List.map_congr_left (fun u _ => by rw [tooltipLine_eq_spec])
  rw [hmap]
  apply congrArg jsTrim
  apply congrArg (fun t => t ++ concatStrings (usernames.map (fun u => specTooltipLine uc u ++ "\n")))
  rw [String.append_assoc]
  exact congrArg (fun t => formatDate date ++ t) (by decide)

/-! ## Escaping lemmas (claim C7) -/

theorem escChar_not_bad (c : Char) :
    ∀ x ∈ escChar c, x ≠ '<' ∧ x ≠ '>' ∧ x ≠ apos ∧ x ≠ '"' := by
  intro x hx
  unfold escChar at hx
  split_ifs at hx with h1 h2 h3 h4 h5
  · simp only [List.mem_cons, List.not_mem_nil, or_false] at hx
    rcases hx with rfl | rfl | rfl | rfl <;> decide
  · simp only [List.mem_cons, List.not_mem_nil, or_false] at hx
    rcases hx with rfl | rfl | rfl | rfl <;> decide
  · simp only [List.mem_cons, List.not_mem_nil, or_false] at hx
    rcases hx with rfl | rfl | rfl | rfl | rfl <;> decide
  · simp only [List.mem_cons, List.not_mem_nil, or_false] at hx
    rcases hx with rfl | rfl | rfl | rfl | rfl | rfl <;> decide
  · simp only [List.mem_cons, List.not_mem_nil, or_false] at hx
    rcases hx with rfl | rfl | rfl | rfl | rfl | rfl <;> decide
  · simp only [List.mem_cons, List.not_mem_nil, or_false] at hx
    subst hx
    exact ⟨h1, h2, h4, h5⟩

theorem escapeXml_not_bad (s : String) :
    ∀ x ∈ (escapeXml s).data, x ≠ '<' ∧ x ≠ '>' ∧ x ≠ apos ∧ x ≠ '"' := by
  intro x hx
  simp only [escapeXml, List.mem_flatten, List.mem_map] at hx
  obtain ⟨bl, ⟨c, _, rfl⟩, hxbl⟩ := hx
  exact escChar_not_bad c x hxbl

theorem escChar_amp (c : Char) (i : Nat) (h : (escChar c)[i]? = some '&') :
    i = 0 ∧ escChar c ∈ entityList := by
  unfold escChar at h ⊢
  split_ifs at h ⊢ with h1 h2 h3 h4 h5
  all_goals
    first
      | (cases i with
          | zero => exact ⟨rfl, by decide⟩
          | succ n =>
            rw [List.getElem?_cons_succ] at h
            exact absurd (List.getElem?_mem h) (by decide))
      | (exfalso
         have hmem := List.getElem?_mem h
         simp only [List.mem_cons, List.not_mem_nil, or_false] at hmem
         exact h3 hmem.symm)

theorem escapeXmlL_amp :
    ∀ (l : List Char) (i : Nat), ((l.map escChar).flatten)[i]? = some '&' →
      ∃ e ∈ entityList, e <+: ((l.map escChar).flatten).drop i
  | [], i, h => by simp at h
  | c :: l, i, h => by
    rw [List.map_cons, List.flatten_cons] at h ⊢
    by_cases hlen : i < (escChar c).length
    · rw [List.getElem?_append_left hlen] at h
      obtain ⟨rfl, hent⟩ := escChar_amp c i h
      exact ⟨escChar c, hent, by rw [List.drop_zero]; exact List.prefix_append _ _⟩
    · push_neg at hlen
      rw [List.getElem?_append_right hlen] at h
      obtain ⟨j, rfl⟩ : ∃ j, i = (escChar c).length + j :=
        ⟨i - (escChar c).length, by omega⟩
      rw [List.drop_append]
      simpa using escapeXmlL_amp l j (by simpa using h)

/-- Count of a character in a string. -/
theorem count_escapeXml_eq_zero (s : String) (c : Char)
    (hc : c = '<' ∨ c = '>' ∨ c = apos ∨ c = '"') :
    (escapeXml s).data.count c = 0 := by
  rw [List.count_eq_zero]
  intro hmem
  have hbad := escapeXml_not_bad s c hmem
  rcases hc with rfl | rfl | rfl | rfl
  · exact hbad.1 rfl
  · exact hbad.2.1 rfl
  · exact hbad.2.2.1 rfl
  · exact hbad.2.2.2 rfl

/-- C7: the five markup characters are each emitted only as their standard
entity.  Concretely: each of the five characters is replaced by its entity;
the escaped text never contains a raw `<`, `>`, apostrophe or quote; every
ampersand in escaped text starts one of the five entities; and the counts
of raw `<`, `>`, apostrophe and quote characters in the composed document
and in a rendered cell do not depend on the user-controlled text (account
identifiers, dates, tooltips) embedded in them. -/
theorem escape_xml_no_raw :
    (escChar '<' = ['&', 'l', 't', ';'] ∧ escChar '>' = ['&', 'g', 't', ';']
      ∧ escChar '&' = ['&', 'a', 'm', 'p', ';']
      ∧ escChar apos = ['&', 'a', 'p', 'o', 's', ';']
      ∧ escChar '"' = ['&', 'q', 'u', 'o', 't', ';'])
    ∧ (∀ s : String, ∀ x ∈ (escapeXml s).data,
        x ≠ '<' ∧ x ≠ '>' ∧ x ≠ apos ∧ x ≠ '"')
    ∧ (∀ (s : String) (i : Nat), (escapeXml s).data[i]? = some '&' →
        ∃ e ∈ entityList, e <+: (escapeXml s).data.drop i)
    ∧ (∀ (width height padding : Int) (usernames graphSVGs : List String)
        (theme : String) (c : Char),
        (c = '<' ∨ c = '>' ∨ c = apos ∨ c = '"') →
        (generateCompleteSVG width height usernames graphSVGs theme padding).data.count c
          = (generateCompleteSVG width height [] graphSVGs theme padding).data.count c)
    ∧ (∀ (x y cs : Int) (color : String) (day : MDay) (tooltip : String) (c : Char),
        (c = '<' ∨ c = '>' ∨ c = apos ∨ c = '"') →
        (renderSquare x y cs color day tooltip).data.count c
          = (renderSquare x y cs color
              { date := "", contributionCount := day.contributionCount,
                contributionLevel := day.contributionLevel } "").data.count c) := by
  refine ⟨⟨by decide, by decide, by decide, by decide, by decide⟩,
    escapeXml_not_bad, ?_, ?_, ?_⟩
  · intro s i h
    exact escapeXmlL_amp s.data i h
  · intro width height padding usernames graphSVGs theme c hc
    simp only [generateCompleteSVG, String.data_append, List.count_append]
    rw [count_escapeXml_eq_zero _ _ hc, count_escapeXml_eq_zero _ _ hc]
  · intro x y cs color day tooltip c hc
    simp only [renderSquare, String.data_append, List.count_append]
    rw [count_escapeXml_eq_zero _ _ hc, count_escapeXml_eq_zero _ _ hc,
      count_escapeXml_eq_zero _ _ hc]

/-- C7 witness: in the escaped form of `a&b` the ampersand at position 1
starts an entity. -/
theorem escape_xml_no_raw_witness :
    ∃ e ∈ entityList, e <+: (escapeXml "a&b").data.drop 1 :=
  escape_xml_no_raw.2.2.1 "a&b" 1 (by decide)

/-! ## Handler lemmas (claims C4, C5, C10) -/

theorem yearsFromParam_error_msg (yp : Option String) (cy : Int) (m : String)
    (h : yearsFromParam yp cy = Except.error m) : m = yearsErrorMsg := by
  unfold yearsFromParam at h
  by_cases ht : truthyS yp = true
  · rw [if_pos ht] at h
    cases hp : parseIntJS (jsTrim (yp.getD "")) with
    | none =>
      simp only [hp] at h
      injection h with h'
      exact h'.symm
    | some n =>
      simp only [hp] at h
      by_cases hlt : n < 1
      · rw [if_pos hlt] at h
        injection h with h'
        exact h'.symm
      · rw [if_neg hlt] at h
        exact absurd h (fun hh => Except.noConfusion hh)
  · rw [if_neg ht] at h
    exact absurd h (fun hh => Except.noConfusion hh)

/-- Exhaustive description of the outcomes of `handlerMain`: a 400
response whose network trace is exactly the authorization fan-out and
whose body is the theme or years error message; the `catch` wrapper's
generic 500 after a failed contribution fetch; or a 200 response.  (The
zero-authorized-users 400 is unreachable: the list always starts with the
primary user.) -/
theorem handlerMain_cases (env : Env) (mp yp : Option String) (tpn : String)
    (cy : Int) (ao : String → Bool)
    (dao : String → Int → Except String Calendar) :
    ((handlerMain env mp yp tpn cy ao dao).1
        = (additionalUsersOf mp (jsTrim (env.primaryUser.getD ""))).map NetEvent.authCheck
      ∧ (handlerMain env mp yp tpn cy ao dao).2.status = 400
      ∧ ((handlerMain env mp yp tpn cy ao dao).2.body = themeErrorMsg
          ∨ (handlerMain env mp yp tpn cy ao dao).2.body = yearsErrorMsg))
    ∨ ((handlerMain env mp yp tpn cy ao dao).2.status = 500
        ∧ (handlerMain env mp yp tpn cy ao dao).2.body = unexpectedErrorMsg)
    ∨ (handlerMain env mp yp tpn cy ao dao).2.status = 200 := by
  simp only [handlerMain]
  rw [if_neg (show ¬ (authorizedUsersOf (jsTrim (env.primaryUser.getD "")) mp ao).length = 0
    by simp [authorizedUsersOf])]
  by_cases ht : tpn ∉ validThemes
  · rw [if_pos ht]
    exact Or.inl ⟨rfl, rfl, Or.inl rfl⟩
  · rw [if_neg ht]
    split
    · rename_i m hY
      exact Or.inl ⟨rfl, rfl, Or.inr (yearsFromParam_error_msg yp cy m hY)⟩
    · split
      · exact Or.inr (Or.inl ⟨rfl, rfl⟩)
      · exact Or.inr (Or.inr rfl)

/-- Exhaustive description of the outcomes of the full handler: a 500
configuration error with an empty network trace, a 400 validation error
whose trace is exactly the authorization fan-out, the `catch` wrapper's
generic 500 after a failed contribution fetch, or a 200 success. -/
theorem handler_cases (env : Env) (mp yp tp : Option String) (cy : Int)
    (ao : String → Bool) (dao : String → Int → Except String Calendar) :
    ((handler env mp yp tp cy ao dao).1 = []
        ∧ (handler env mp yp tp cy ao dao).2.status = 500)
    ∨ ((handler env mp yp tp cy ao dao).1
          = (additionalUsersOf mp (jsTrim (env.primaryUser.getD ""))).map NetEvent.authCheck
        ∧ (handler env mp yp tp cy ao dao).2.status = 400
        ∧ ((handler env mp yp tp cy ao dao).2.body = themeErrorMsg
            ∨ (handler env mp yp tp cy ao dao).2.body = yearsErrorMsg))
    ∨ ((handler env mp yp tp cy ao dao).2.status = 500
        ∧ (handler env mp yp tp cy ao dao).2.body = unexpectedErrorMsg)
    ∨ (handler env mp yp tp cy ao dao).2.status = 200 := by
  simp only [handler]
  by_cases h1 : truthyS env.githubToken = true
  case neg =>
    rw [if_pos h1]
    exact Or.inl ⟨rfl, rfl⟩
  rw [if_neg (fun hc => hc h1)]
  by_cases h2 : truthyS env.primaryUser = true
  case neg =>
    rw [if_pos h2]
    exact Or.inl ⟨rfl, rfl⟩
  rw [if_neg (fun hc => hc h2)]
  rcases handlerMain_cases env mp yp
      (if truthyS tp = true then tp.getD "" else "dark") cy ao dao with h | h | h
  · exact Or.inr (Or.inl h)
  · exact Or.inr (Or.inr (Or.inl h))
  · exact Or.inr (Or.inr (Or.inr h))

/-- C5: a years parameter that parses to `NaN` or below 1 is rejected —
`yearsFromParam` yields the error message describing valid input, and the
handler (with valid configuration and theme) turns that error into a
status-400 response with that message; a valid `years=100` request in 2024
yields exactly the 17 years 2024 down to 2008; and an absent years
parameter yields exactly the current year. -/
theorem years_param_spec :
    (∀ (yp : String) (cy : Int),
        yp ≠ "" →
        (parseIntJS (jsTrim yp) = none
          ∨ ∃ n, parseIntJS (jsTrim yp) = some n ∧ n < 1) →
        yearsFromParam (some yp) cy = Except.error yearsErrorMsg)
    ∧ (∀ (env : Env) (mp yp tp : Option String) (cy : Int)
        (ao : String → Bool) (dao : String → Int → Except String Calendar)
        (m : String),
        truthyS env.githubToken → truthyS env.primaryUser →
        (if truthyS tp then tp.getD "" else "dark") ∈ validThemes →
        yearsFromParam yp cy = Except.error m →
        (handler env mp yp tp cy ao dao).2 = { status := 400, body := m })
    ∧ yearsFromParam (some "100") 2024
        = Except.ok [2024, 2023, 2022, 2021, 2020, 2019, 2018, 2017, 2016,
            2015, 2014, 2013, 2012, 2011, 2010, 2009, 2008]
    ∧ (∀ cy : Int, yearsFromParam none cy = Except.ok [cy]) := by
  refine ⟨?_, ?_, by rfl, fun cy => rfl⟩
  · intro yp cy hne hbad
    unfold yearsFromParam
    have ht : truthyS (some yp) = true := by simp [truthyS, hne]
    rw [if_pos ht]
    rcases hbad with hnone | ⟨n, hn, hlt⟩
    · simp only [Option.getD_some, hnone]
    · simp only [Option.getD_some, hn]
      rw [if_pos hlt]
  · intro env mp yp tp cy ao dao m h1 h2 htheme herr
    simp only [handler]
    rw [if_neg (fun hc => hc h1), if_neg (fun hc => hc h2)]
    simp only [handlerMain]
    rw [if_neg (show ¬ (authorizedUsersOf (jsTrim (env.primaryUser.getD "")) mp ao).length = 0
      by simp [authorizedUsersOf])]
    rw [if_neg (show ¬ (if truthyS tp = true then tp.getD "" else "dark") ∉ validThemes
      from fun hc => hc htheme)]
    rw [herr]

/-- C5 witness: a non-numeric years value and a below-1 years value are
both rejected with the 400 response carrying the years error message. -/
theorem years_param_spec_witness :
    yearsFromParam (some "abc") 2024 = Except.error yearsErrorMsg
      ∧ (handler exEnv none (some "0") none 2024 allowAll emptyOracle).2
          = { status := 400, body := yearsErrorMsg } := by
  constructor
  · exact years_param_spec.1 "abc" 2024 (by decide) (Or.inl (by decide))
  · exact years_param_spec.2.1 exEnv none (some "0") none 2024 allowAll
      emptyOracle yearsErrorMsg (by decide) (by decide) (by decide) (by rfl)

/-- C4 counterexample: a request with `merge=u2` and the invalid theme
`bogus` is rejected by theme validation (status 400), yet the
authorization check for `u2` has already been issued — validation does not
precede the authorization fan-out. -/
theorem validation_order_cex :
    (handler exEnv (some "u2") none (some "bogus") 2024 allowAll emptyOracle).2
        = { status := 400, body := themeErrorMsg }
      ∧ NetEvent.authCheck "u2"
          ∈ (handler exEnv (some "u2") none (some "bogus") 2024 allowAll emptyOracle).1 := by
  decide

/-- C4 (amended): configuration errors are detected before any network
call (the trace is empty), and no contribution-fetch call is issued for a
request that fails validation — every network call of a 400
validation-error response is an authorization check.  (Authorization
fan-out, however, precedes theme and years validation, as the
counterexample shows; and a request that passes validation but whose
contribution fetch fails ends as a 500 with the fetch calls already
issued, as the closed conjunct exhibits — so the guarantee cannot be
widened beyond validation errors.) -/
theorem validation_before_fetch :
    (∀ (env : Env) (mp yp tp : Option String) (cy : Int) (ao : String → Bool)
        (dao : String → Int → Except String Calendar),
        (¬ truthyS env.githubToken ∨ ¬ truthyS env.primaryUser) →
        (handler env mp yp tp cy ao dao).1 = [])
    ∧ (∀ (env : Env) (mp yp tp : Option String) (cy : Int) (ao : String → Bool)
        (dao : String → Int → Except String Calendar),
        (handler env mp yp tp cy ao dao).2.status = 400 →
        ∀ e ∈ (handler env mp yp tp cy ao dao).1, e.isAuthEvent = true)
    ∧ ((handler exEnv none none none 2024 allowAll failingOracle).2
          = { status := 500, body := unexpectedErrorMsg }
        ∧ NetEvent.fetchContrib "p" 2024
            ∈ (handler exEnv none none none 2024 allowAll failingOracle).1) := by
  refine ⟨?_, ?_, by decide⟩
  · intro env mp yp tp cy ao dao hcfg
    simp only [handler]
    rcases hcfg with h | h
    · rw [if_pos h]
    · by_cases h1 : truthyS env.githubToken = true
      case neg => rw [if_pos h1]
      rw [if_neg (fun hc => hc h1), if_pos h]
  · intro env mp yp tp cy ao dao hst e he
    rcases handler_cases env mp yp tp cy ao dao
      with ⟨_, h500⟩ | ⟨htr, _, _⟩ | ⟨h500, _⟩ | h200
    · rw [hst] at h500
      exact absurd h500 (by decide)
    · rw [htr] at he
      simp only [List.mem_map] at he
      obtain ⟨u, _, rfl⟩ := he
      rfl
    · rw [hst] at h500
      exact absurd h500 (by decide)
    · rw [h200] at hst
      exact absurd hst (by decide)

/-- C4 witness for the amended claim: with `GITHUB_TOKEN` missing the
trace is empty, and the bad-theme request issues no contribution fetch. -/
theorem validation_before_fetch_witness :
    (handler { githubToken := none, primaryUser := some "p" } (some "u2") none
        none 2024 allowAll emptyOracle).1 = []
      ∧ ∀ e ∈ (handler exEnv (some "u2") none (some "bogus") 2024 allowAll
          emptyOracle).1, e.isAuthEvent = true := by
  constructor
  · exact validation_before_fetch.1 _ (some "u2") none none 2024 allowAll
      emptyOracle (Or.inl (by decide))
  · exact validation_before_fetch.2.1 exEnv (some "u2") none (some "bogus") 2024
      allowAll emptyOracle (by decide)

/-- C10: the authorized user list always starts with the primary account
(whose duplicates were removed from the merge parameter while parsing), so
it is never empty and no 400 response ever carries the
zero-authorized-users message. -/
theorem authorized_users_nonempty :
    (∀ (primary : String) (mp : Option String) (ao : String → Bool),
        (authorizedUsersOf primary mp ao).head? = some primary
      ∧ (authorizedUsersOf primary mp ao).length ≠ 0
      ∧ primary ∉ additionalUsersOf mp primary)
    ∧ (∀ (env : Env) (mp yp tp : Option String) (cy : Int) (ao : String → Bool)
        (dao : String → Int → Except String Calendar),
        (handler env mp yp tp cy ao dao).2.status = 400 →
        (handler env mp yp tp cy ao dao).2.body ≠ noAuthorizedMsg) := by
  constructor
  · intro primary mp ao
    refine ⟨rfl, by simp [authorizedUsersOf], ?_⟩
    intro hmem
    unfold additionalUsersOf at hmem
    by_cases ht : truthyS mp
    · rw [if_pos ht] at hmem
      rw [List.mem_filter] at hmem
      have := of_decide_eq_true hmem.2
      exact this.2 rfl
    · rw [if_neg ht] at hmem
      simp at hmem
  · intro env mp yp tp cy ao dao hst
    rcases handler_cases env mp yp tp cy ao dao
      with ⟨_, h500⟩ | ⟨_, _, hbody⟩ | ⟨h500, _⟩ | h200
    · rw [hst] at h500
      exact absurd h500 (by decide)
    · rcases hbody with hb | hb <;> rw [hb] <;> decide
    · rw [hst] at h500
      exact absurd h500 (by decide)
    · rw [h200] at hst
      exact absurd hst (by decide)

/-- C10 witness: on a concrete request the authorized list is headed by
the primary user, and a concrete 400 response does not carry the
zero-authorized-users message. -/
theorem authorized_users_nonempty_witness :
    (authorizedUsersOf "p" (some "u2,p") allowAll).head? = some "p"
      ∧ (handler exEnv (some "u2") none (some "bogus") 2024 allowAll
          emptyOracle).2.body ≠ noAuthorizedMsg := by
  constructor
  · exact (authorized_users_nonempty.1 "p" (some "u2,p") allowAll).1
  · exact authorized_users_nonempty.2 exEnv (some "u2") none (some "bogus")
      2024 allowAll emptyOracle (by decide)

end ContribMerge

